import Mathlib

/-!
Verification development for the `ecdf_estimator` Python package
(`src/ecdf_estimator/utils.py` and `src/ecdf_estimator/objective_function.py`).

Shallow embedding conventions:
* Python floats are idealised as rationals (`ℚ`).  The single place where the
  code can produce an IEEE `nan` (dividing by the length of an empty list, and
  the `nan`-propagating aggregate statistics built on top of it) is modelled by
  the marker type `PyFloat` with a dedicated `nan` constructor.
* Python exceptions are modelled with `Except String`; the string is the kind
  of exception (`IndexError`, `ValueError`, ...) raised at that program point.
* `numpy` vectorised operations are modelled element-wise over lists; linear
  algebra for the objective evaluator is modelled over `Matrix (Fin n) (Fin n) ℚ`.
* Randomness (`np.random.randint(k, size)`) is injected as an explicit
  function `rng : Nat → Nat → Nat` (sample index, position); the draws are
  taken `% k`, which realises exactly the value range `[0, k)` of `randint`.
-/

namespace EcdfEst

open scoped Matrix

/-- Model of a numpy floating-point scalar: either an actual (rational) value
or the `nan` produced by invalid operations such as `0.0 / 0`. -/
inductive PyFloat where
  | val : ℚ → PyFloat
  | nan : PyFloat
  deriving DecidableEq, Repr

/-- Addition with `nan` propagation. -/
def PyFloat.add : PyFloat → PyFloat → PyFloat
  | .val a, .val b => .val (a + b)
  | _, _ => .nan

/-- Subtraction with `nan` propagation. -/
def PyFloat.sub : PyFloat → PyFloat → PyFloat
  | .val a, .val b => .val (a - b)
  | _, _ => .nan

/-- Multiplication with `nan` propagation. -/
def PyFloat.mul : PyFloat → PyFloat → PyFloat
  | .val a, .val b => .val (a * b)
  | _, _ => .nan

/-- Division of a numpy scalar by a natural number (a Python `len`).  Division
by zero yields `nan` (numpy emits only a `RuntimeWarning`, no exception);
this is the `0.0 / 0` arising from empty inputs. -/
def PyFloat.divNat : PyFloat → Nat → PyFloat
  | _, 0 => .nan
  | .nan, _ => .nan
  | .val a, n => .val (a / (n : ℚ))

/-- Sum of a list of numpy scalars (`nan` propagates; the empty sum is `0`,
matching `np.sum([]) == 0.0`). -/
def pySum (l : List PyFloat) : PyFloat :=
  l.foldr PyFloat.add (.val 0)

/-- Number of elements of `L` strictly below the threshold `b`. -/
def countLess (L : List ℚ) (b : ℚ) : Nat :=
  (L.filter (fun d => d < b)).length

/-- `empirical_cumulative_distribution_vector(distance_list, bins)`
(defined identically, up to an intermediate mutable list, in
`utils.py` lines 13-15 and `objective_function.py` lines 4-11):
for each bin `b` it computes `np.sum([distance < b for distance in L]) / len(L)`.
The numerator is the sum of the boolean indicators; for an empty `L` the
division `0.0 / 0` silently yields `nan` (numpy raises no exception here). -/
def empirical_cumulative_distribution_vector (L : List ℚ) (bins : List ℚ) :
    List PyFloat :=
  bins.map fun b =>
    if L.isEmpty then PyFloat.nan
    else PyFloat.val (((L.map fun d => if d < b then (1 : ℚ) else 0).sum) / (L.length : ℚ))

/-- `create_distance_matrix(dataset_a, dataset_b, distance_fct, start_a, end_a,
start_b, end_b)` (`utils.py` lines 32-41, `objective_function.py` lines 14-28):
the `(i, j)` entry is `distance_fct(dataset_a[start_a + i], dataset_b[start_b + j])`.
Both modules build the same comprehension; the `objective_function.py` variant
iterates `range(end - start)` with an offset, so an inverted range yields an
empty matrix, while the `utils.py` variant raises on inverted ranges — every
call verified below happens after the partition validation, where the ranges
are never inverted, so the two variants agree.  In-bounds index accesses are
guaranteed at every verified call site, making the `default` element
unreachable. -/
def create_distance_matrix [Inhabited α] (dataset_a dataset_b : List α)
    (distance_fct : α → α → ℚ) (start_a end_a start_b end_b : Nat) :
    List (List ℚ) :=
  (List.range (end_a - start_a)).map fun i =>
    (List.range (end_b - start_b)).map fun j =>
      distance_fct (dataset_a.getD (start_a + i) default)
        (dataset_b.getD (start_b + j) default)

/-- The flattening loop
`while isinstance(distance_list[0], list): distance_list = [item for sublist ... ]`
(`utils.py` lines 68-69, `objective_function.py` lines 42-43), specialised to a
scalar-valued distance function, so the loop body runs exactly once.  The two
`IndexError` branches model `distance_list[0]` being evaluated on an empty
list: once on the empty matrix (zero rows), and once on the flattened list
when every row is empty. -/
def flattenDistanceMatrix (m : List (List ℚ)) : Except String (List ℚ) :=
  match m with
  | [] => .error "IndexError: list index out of range"
  | _ :: _ =>
    match m.flatten with
    | [] => .error "IndexError: list index out of range"
    | _ :: _ => .ok m.flatten

/-- The iteration order of the nested loops
`for i in range(k): for j in range(i):` of the standard assembler
(`utils.py` lines 64-65). -/
def subsetPairs (k : Nat) : List (Nat × Nat) :=
  (List.range k).flatMap fun i => (List.range i).map fun j => (i, j)

/-- Loop body of the standard assembler for the subset pair `(i, j)`
(`utils.py` lines 66-70): build the distance matrix between subset `i` and
subset `j`, flatten it, and vectorise against the bins. -/
def buildColumn [Inhabited α] (dataset : List α) (bins : List ℚ)
    (distance_fct : α → α → ℚ) (subset_indices : List Nat) (i j : Nat) :
    Except String (List PyFloat) := do
  let dm := create_distance_matrix dataset dataset distance_fct
    (subset_indices.getD i 0) (subset_indices.getD (i + 1) 0)
    (subset_indices.getD j 0) (subset_indices.getD (j + 1) 0)
  let distance_list ← flattenDistanceMatrix dm
  pure (empirical_cumulative_distribution_vector distance_list bins)

/-- The validation
`all(subset_indices[i] <= subset_indices[i+1] for i in range(len(subset_indices)-1))`
(`utils.py` line 58): each index is at most its successor. -/
def subsetIndicesOrdered : List Nat → Bool
  | [] => true
  | [_] => true
  | a :: b :: l => a ≤ b && subsetIndicesOrdered (b :: l)

/-- `empirical_cumulative_distribution_vector_list(dataset, bins, distance_fct,
subset_indices)` (`utils.py` lines 57-72; byte-identical logic in
`objective_function.py` lines 31-46): validate the partition (raising the two
distinct partition errors of the source), then build one ECDF vector per
subset pair `(i, j)` with `j < i`, and return the transposed matrix
(`np.transpose`, so each appended row becomes a column of the result).
The `IndexError` branch models `subset_indices[0]` on an empty list. -/
def empirical_cumulative_distribution_vector_list [Inhabited α] (dataset : List α)
    (bins : List ℚ) (distance_fct : α → α → ℚ) (subset_indices : List Nat) :
    Except String (List (List PyFloat)) :=
  if subsetIndicesOrdered subset_indices then
    match subset_indices.head? with
    | none => .error "IndexError: list index out of range"
    | some h0 =>
      if h0 = 0 ∧ subset_indices.getLast? = some dataset.length then
        ((subsetPairs (subset_indices.length - 1)).mapM fun p =>
          buildColumn dataset bins distance_fct subset_indices p.1 p.2).map
          List.transpose
      else .error "Not all elements of the dataset are distributed into subsets."
  else .error "Subset indices are out of order."

/-- `np.mean` of one row: sum divided by length; the mean of an empty row is
`nan` (numpy warns, returns `nan`). -/
def np_mean (l : List PyFloat) : PyFloat :=
  (pySum l).divNat l.length

/-- `mean_of_ecdf_vectors(ecdf_vector_list)` (`utils.py` lines 98-99,
`objective_function.py` lines 61-62): the row-wise means. -/
def mean_of_ecdf_vectors (ecdf_vector_list : List (List PyFloat)) : List PyFloat :=
  ecdf_vector_list.map np_mean

/-- One entry of `np.cov`: the sample covariance of two rows observed across
the columns, with the unbiased divisor `M - 1` (`nan` when `M ≤ 1`, as numpy
produces with only a warning). -/
def covEntry (xs ys : List PyFloat) : PyFloat :=
  let mx := np_mean xs
  let my := np_mean ys
  (pySum (List.zipWith (fun a b => (a.sub mx).mul (b.sub my)) xs ys)).divNat
    (xs.length - 1)

/-- `covariance_of_ecdf_vectors(ecdf_vector_list) = np.cov(...)`
(`utils.py` lines 105-106, `objective_function.py` lines 65-66): rows are the
variables, columns the observations.  (For a single-row input `np.cov`
returns a zero-dimensional array; we keep the uniform `1 × 1` shape — no
verified claim depends on that shape.) -/
def covariance_of_ecdf_vectors (ecdf_vector_list : List (List PyFloat)) :
    List (List PyFloat) :=
  ecdf_vector_list.map fun r => ecdf_vector_list.map fun s => covEntry r s

/-- numpy fancy indexing `distance_matrix[permute_a, permute_b]` with two
one-dimensional integer index arrays: the index arrays must be broadcast
together, i.e. have equal lengths or one of them length `1`; otherwise numpy
raises a shape-mismatch `IndexError`.  (The drawn indices are always within
range, so the `getD` defaults are unreachable at verified call sites.) -/
def fancyIndexPair (m : List (List ℚ)) (ia ib : List Nat) :
    Except String (List ℚ) :=
  if ia.length = ib.length then
    .ok (List.zipWith (fun i j => (m.getD i []).getD j 0) ia ib)
  else if ia.length = 1 then
    .ok (ib.map fun j => (m.getD (ia.headD 0) []).getD j 0)
  else if ib.length = 1 then
    .ok (ia.map fun i => (m.getD i []).getD (ib.headD 0) 0)
  else .error "IndexError: shape mismatch: indexing arrays could not be broadcast together"

/-- One iteration of the bootstrap loop (`utils.py` lines 86-90) given the
drawn index vectors: fancy-index the distance matrix (the result is already
one-dimensional, so `np.ndarray.flatten` is the identity on it) and
vectorise.  `np.random.randint(0, size=...)` raises a `ValueError` (empty
value range), which happens exactly when a dataset is empty. -/
def bootstrapSample (m : List (List ℚ)) (nA nB : Nat) (bins : List ℚ)
    (ia ib : List Nat) : Except String (List PyFloat) :=
  if nA = 0 ∨ nB = 0 then .error "ValueError: low >= high"
  else
    (fancyIndexPair m ia ib).map fun distance_list =>
      empirical_cumulative_distribution_vector distance_list bins

/-- The index vector drawn by `np.random.randint(k, size=k)` for sample `s`,
given the injected randomness source: `k` values, each reduced into `[0, k)`. -/
def drawIndices (rng : Nat → Nat → Nat) (s k : Nat) : List Nat :=
  (List.range k).map fun t => rng s t % k

/-- `empirical_cumulative_distribution_vector_list_bootstrap(dataset_a,
dataset_b, bins, distance_fct, n_samples)` — the `utils.py` version
(lines 82-91), where the distance matrix is wrapped in `np.array`, so its
`.shape` is `(len(dataset_a), len(dataset_b))` for non-empty datasets.
For each sample, row and column index vectors of lengths `A` and `B` are
drawn independently with replacement and the matrix is fancy-indexed with
the pair; the appended rows are transposed at the end. -/
def empirical_cumulative_distribution_vector_list_bootstrap [Inhabited α]
    (dataset_a dataset_b : List α) (bins : List ℚ) (distance_fct : α → α → ℚ)
    (n_samples : Nat) (rngA rngB : Nat → Nat → Nat) :
    Except String (List (List PyFloat)) :=
  let dm := create_distance_matrix dataset_a dataset_b distance_fct
    0 dataset_a.length 0 dataset_b.length
  ((List.range n_samples).mapM fun s =>
    bootstrapSample dm dataset_a.length dataset_b.length bins
      (drawIndices rngA s dataset_a.length)
      (drawIndices rngB s dataset_b.length)).map List.transpose

/-- Attribute lookup `distance_matrix.shape` on a value that is a plain
Python list: plain lists have no `shape` attribute, so the lookup raises an
`AttributeError` unconditionally. -/
def pylist_shape (_m : List (List ℚ)) : Except String (Nat × Nat) :=
  .error "AttributeError: list object has no attribute shape"

/-- `empirical_cumulative_distribution_vector_list_bootstrap` — the
`objective_function.py` version (lines 49-58).  Identical to the `utils.py`
version except that the distance matrix is never wrapped in `np.array`: it
stays a plain nested list, and the first statement of every loop iteration
evaluates `distance_matrix.shape[0]`, which raises `AttributeError`. -/
def empirical_cumulative_distribution_vector_list_bootstrap_of [Inhabited α]
    (dataset_a dataset_b : List α) (bins : List ℚ) (distance_fct : α → α → ℚ)
    (n_samples : Nat) (rngA rngB : Nat → Nat → Nat) :
    Except String (List (List PyFloat)) :=
  let dm := create_distance_matrix dataset_a dataset_b distance_fct
    0 dataset_a.length 0 dataset_b.length
  ((List.range n_samples).mapM fun s => do
    let sh ← pylist_shape dm
    bootstrapSample dm sh.1 sh.2 bins
      (drawIndices rngA s sh.1) (drawIndices rngB s sh.2)).map List.transpose

/-- The frozen state built by `objective_function.__init__`
(`objective_function.py` lines 133-148).  The distance function is kept as a
constructor argument rather than a field; `file_output` (plain-text dumps)
is outside the verified core. -/
structure ObjectiveFunctionState (α : Type) where
  dataset : List α
  bins : List ℚ
  subset_indices : List Nat
  ecdf_list : List (List PyFloat)
  mean_vector : List PyFloat
  covar_matrix : List (List PyFloat)
  error_printed : Bool

/-- `objective_function.__init__(dataset, bins, distance_fct, subset_sizes)`
(`objective_function.py` lines 133-148): the partition indices are the
cumulative sums `[sum(subset_sizes[:i]) for i in range(len(subset_sizes)+1)]`;
the ECDF list, mean vector and covariance matrix are derived once; the
one-shot warning flag starts unset.  No other validation is performed. -/
def objective_function_init [Inhabited α] (dataset : List α) (bins : List ℚ)
    (distance_fct : α → α → ℚ) (subset_sizes : List Nat) :
    Except String (ObjectiveFunctionState α) := do
  let subset_indices := (List.range (subset_sizes.length + 1)).map fun i =>
    (subset_sizes.take i).sum
  let ecdf_list ← empirical_cumulative_distribution_vector_list dataset bins
    distance_fct subset_indices
  pure { dataset := dataset, bins := bins, subset_indices := subset_indices,
         ecdf_list := ecdf_list,
         mean_vector := mean_of_ecdf_vectors ecdf_list,
         covar_matrix := covariance_of_ecdf_vectors ecdf_list,
         error_printed := false }

/-- The frozen state built by `bootstrap_objective_function.__init__`
(`objective_function.py` lines 170-187). -/
structure BootstrapObjectiveFunctionState (α : Type) where
  dataset_a : List α
  dataset_b : List α
  bins : List ℚ
  n_samples : Nat
  ecdf_list : List (List PyFloat)
  mean_vector : List PyFloat
  covar_matrix : List (List PyFloat)
  error_printed : Bool

/-- `bootstrap_objective_function.__init__(dataset_a, dataset_b, bins,
distance_fct, n_samples)` (`objective_function.py` lines 170-187): builds the
ECDF list via the module-local bootstrap assembler (the plain-list variant),
then the moments. -/
def bootstrap_objective_function_init [Inhabited α] (dataset_a dataset_b : List α)
    (bins : List ℚ) (distance_fct : α → α → ℚ) (n_samples : Nat)
    (rngA rngB : Nat → Nat → Nat) :
    Except String (BootstrapObjectiveFunctionState α) := do
  let ecdf_list ← empirical_cumulative_distribution_vector_list_bootstrap_of
    dataset_a dataset_b bins distance_fct n_samples rngA rngB
  pure { dataset_a := dataset_a, dataset_b := dataset_b, bins := bins,
         n_samples := n_samples, ecdf_list := ecdf_list,
         mean_vector := mean_of_ecdf_vectors ecdf_list,
         covar_matrix := covariance_of_ecdf_vectors ecdf_list,
         error_printed := false }

/-- Number of columns (`ecdf_list.shape[1]`) of a stored ECDF matrix with at
least one row. -/
def ecdfCols (m : List (List PyFloat)) : Nat :=
  (m.headD []).length

/-- Assignment of one member block into the preallocated slice
`self.ecdf_list[index : index + rows, :]` (`objective_function.py` line 224).
numpy broadcasting of an `(r, c)` block into an `(r, ncols)` slice succeeds
iff `c = ncols` (plain copy) or `c = 1` (the single column is repeated);
otherwise it raises a broadcasting `ValueError`. -/
def broadcastBlock (ncols : Nat) (m : List (List PyFloat)) :
    Except String (List (List PyFloat)) :=
  m.mapM fun row =>
    if row.length = ncols then .ok row
    else if row.length = 1 then .ok (List.replicate ncols (row.headD .nan))
    else .error "ValueError: could not broadcast input array"

/-- The state built by `multiple_objectives.__init__`
(`objective_function.py` lines 210-233).  `printed_error` records whether the
first loop printed
`ERROR: All objective functions should contain the same number of ecdf vectors.`
— the source only prints this message and continues. -/
structure MultipleObjectivesState where
  ecdf_list : List (List PyFloat)
  mean_vector : List PyFloat
  covar_matrix : List (List PyFloat)
  printed_error : Bool

/-- `multiple_objectives.__init__(obj_fun_list)` (`objective_function.py`
lines 210-233), with each member represented by its stored ECDF matrix.
The first loop accumulates the row count, takes the column count from the
first member and only *prints* an error message on a mismatch; an empty
member list leaves `n_columns = -1` and `np.zeros((0, -1))` raises a
`ValueError`.  The second loop copies each block into the preallocated
matrix, where numpy broadcasting raises a `ValueError` for a mismatched
block unless the block has exactly one column.  The spectral-condition check
(`np.linalg.cond`) only prints a warning; on the matrices reachable under the
hypotheses of the theorems below (finite entries, at least two columns) it
returns a float without raising, so it is omitted from the state. -/
def multiple_objectives_init (members : List (List (List PyFloat))) :
    Except String MultipleObjectivesState :=
  match members.head? with
  | none => .error "ValueError: negative dimensions are not allowed"
  | some m0 => do
    let ncols := ecdfCols m0
    let printed := decide (∃ m ∈ members, ecdfCols m ≠ ncols)
    let blocks ← members.mapM fun m => broadcastBlock ncols m
    let stacked := blocks.flatten
    pure { ecdf_list := stacked,
           mean_vector := mean_of_ecdf_vectors stacked,
           covar_matrix := covariance_of_ecdf_vectors stacked,
           printed_error := printed }

/-- `np.ndarray.flatten(matrix)` where `matrix` is a plain Python list
(`objective_function.py` line 240): `flatten` is an unbound `ndarray` method
and does not apply to a `list`, so the call raises a `TypeError`. -/
def ndarray_flatten_pylist (_xs : List ℚ) : Except String (List ℚ) :=
  .error "TypeError: ndarray.flatten does not apply to a list object"

/-- `multiple_objectives.evaluate(dataset)` (`objective_function.py` lines
238-240), with each member abstracted by its `evaluate` method.  The list
comprehension collects every member's **scalar** score; the result is then
passed to `np.ndarray.flatten`, which raises a `TypeError` on a plain list —
and even past that point, the called name
`evaluate_from_empirical_cumulative_distribution_functions` is not defined
at module level in `objective_function.py` (only the underscore-prefixed
two-argument version is), so a `NameError` would follow. -/
def multiple_objectives_evaluate (members : List (List α → Except String ℚ))
    (dataset : List α) : Except String ℚ := do
  let matrix ← members.mapM fun ev => ev dataset
  let _ ← ndarray_flatten_pylist matrix
  (.error "NameError: name evaluate_from_empirical_cumulative_distribution_functions is not defined" :
    Except String ℚ)

/-- `np.linalg.solve(C, b)` idealised over the rationals: the solve succeeds
exactly on non-singular matrices and then returns `C⁻¹ * b`, written through
the adjugate so the definition is executable. -/
def npSolve {n : ℕ} (C : Matrix (Fin n) (Fin n) ℚ) (b : Fin n → ℚ) :
    Option (Fin n → ℚ) :=
  if C.det = 0 then none else some (C.det⁻¹ • C.adjugate.mulVec b)

/-- `_evaluate_from_empirical_cumulative_distribution_functions(obj_fun, vector)`
(`objective_function.py` lines 120-128), as a function of the estimator state
it reads (`mean_vector`, `covar_matrix`, `error_printed`).  Result:
`(score, new error_printed flag, whether the warning was printed)`.
The solve is always attempted; on `LinAlgError` the warning is printed only
if the flag was unset, the flag is set, and the Euclidean fallback is
returned.  The function always returns — the exception is caught. -/
def eval_from_ecdf_objfun {n : ℕ} (mean_vector : Fin n → ℚ)
    (covar_matrix : Matrix (Fin n) (Fin n) ℚ) (error_printed : Bool)
    (vector : Fin n → ℚ) : ℚ × Bool × Bool :=
  let mean_deviation := mean_vector - vector
  match npSolve covar_matrix mean_deviation with
  | some x => (mean_deviation ⬝ᵥ x, error_printed, false)
  | none => (mean_deviation ⬝ᵥ mean_deviation, true, !error_printed)

/-- `evaluate_from_empirical_cumulative_distribution_functions(estimator, vector)`
(`utils.py` lines 126-134).  Unlike the `objective_function.py` version, the
whole `try` block sits inside `if not estimator.error_printed:`, so once the
flag is set the solve is never attempted again and the Euclidean fallback is
returned unconditionally. -/
def eval_from_ecdf_utils {n : ℕ} (mean_vector : Fin n → ℚ)
    (covar_matrix : Matrix (Fin n) (Fin n) ℚ) (error_printed : Bool)
    (vector : Fin n → ℚ) : ℚ × Bool × Bool :=
  let mean_deviation := mean_vector - vector
  if error_printed then (mean_deviation ⬝ᵥ mean_deviation, true, false)
  else
    match npSolve covar_matrix mean_deviation with
    | some x => (mean_deviation ⬝ᵥ x, false, false)
    | none => (mean_deviation ⬝ᵥ mean_deviation, true, true)

/-- The value of one successfully assembled column: the ECDF vector of the
flattened distance matrix between the two subsets of the pair. -/
def columnOf [Inhabited α] (dataset : List α) (bins : List ℚ)
    (distance_fct : α → α → ℚ) (subset_indices : List Nat) (p : Nat × Nat) :
    List PyFloat :=
  empirical_cumulative_distribution_vector
    ((create_distance_matrix dataset dataset distance_fct
      (subset_indices.getD p.1 0) (subset_indices.getD (p.1 + 1) 0)
      (subset_indices.getD p.2 0) (subset_indices.getD (p.2 + 1) 0)).flatten) bins

/-- The distance resample drawn in bootstrap iteration `s`: the two index
vectors paired positionally. -/
def bootstrapDistances [Inhabited α] (dataset_a dataset_b : List α)
    (distance_fct : α → α → ℚ) (rngA rngB : Nat → Nat → Nat) (s : Nat) :
    List ℚ :=
  List.zipWith
    (fun i j => ((create_distance_matrix dataset_a dataset_b distance_fct
      0 dataset_a.length 0 dataset_b.length).getD i []).getD j 0)
    (drawIndices rngA s dataset_a.length) (drawIndices rngB s dataset_b.length)

/-- The cumulative-sum partition indices derived by the standard constructor. -/
def cumulativeIndices (subset_sizes : List Nat) : List Nat :=
  (List.range (subset_sizes.length + 1)).map fun i => (subset_sizes.take i).sum

/-- The indicator sum computed by `np.sum([distance < b for ...])` counts the
elements strictly below `b`. -/
theorem indicator_sum_eq_countLess (L : List ℚ) (b : ℚ) :
    (L.map fun d => if d < b then (1 : ℚ) else 0).sum = (countLess L b : ℚ) := by
  induction L with
  | nil => simp [countLess]
  | cons x xs ih =>
      by_cases hx : x < b <;>
        simp [countLess, List.filter_cons, hx, ih, List.sum_cons] <;>
        simp [countLess] at ih <;> push_cast <;> linarith [ih]

/-- `countLess` is monotone in the threshold. -/
theorem countLess_mono (L : List ℚ) {b c : ℚ} (h : b ≤ c) :
    countLess L b ≤ countLess L c := by
  induction L with
  | nil => simp [countLess]
  | cons x xs ih =>
      unfold countLess at ih ⊢
      by_cases hx : x < b
      · have hxc : x < c := lt_of_lt_of_le hx h
        simpa [List.filter_cons, hx, hxc] using Nat.succ_le_succ ih
      · by_cases hxc : x < c <;> simp [List.filter_cons, hx, hxc] <;> omega

/-- The boolean validation agrees with the non-decreasing chain predicate. -/
theorem subsetIndicesOrdered_iff (l : List Nat) :
    subsetIndicesOrdered l = true ↔ List.Chain' (· ≤ ·) l := by
  induction l with
  | nil => simp [subsetIndicesOrdered]
  | cons a l ih =>
      cases l with
      | nil => simp [subsetIndicesOrdered]
      | cons b l =>
          rw [List.chain'_cons, ← ih]
          simp [subsetIndicesOrdered]

/-- A loop whose every iteration succeeds collects exactly the mapped values. -/
theorem mapM_ok_of_forall {α β : Type} {l : List α} {f : α → Except String β}
    {g : α → β} (h : ∀ x ∈ l, f x = .ok (g x)) : l.mapM f = .ok (l.map g) := by
  induction l with
  | nil => rfl
  | cons a l ih =>
      rw [List.mapM_cons, h a (List.mem_cons_self a l),
        ih fun x hx => h x (List.mem_cons_of_mem a hx)]
      rfl

/-- A failing loop fails at one of its elements, with the same message. -/
theorem mapM_error_mem {α β : Type} {l : List α} {f : α → Except String β}
    {msg : String} (h : l.mapM f = .error msg) : ∃ x ∈ l, f x = .error msg := by
  induction l with
  | nil => simp [List.mapM_nil] at h; cases h
  | cons a l ih =>
      rw [List.mapM_cons] at h
      cases hfa : f a with
      | error m =>
          rw [hfa] at h
          refine ⟨a, List.mem_cons_self a l, ?_⟩
          rw [hfa]
          cases h
          rfl
      | ok b =>
          rw [hfa] at h
          cases hl : l.mapM f with
          | error m =>
              rw [hl] at h
              obtain ⟨x, hx, hfx⟩ := ih (by cases h; exact hl)
              exact ⟨x, List.mem_cons_of_mem a hx, hfx⟩
          | ok bs => rw [hl] at h; cases h

/-- `subsetPairs` unfolds one outer iteration at a time. -/
theorem subsetPairs_succ (k : Nat) :
    subsetPairs (k + 1) = subsetPairs k ++ (List.range k).map fun j => (k, j) := by
  unfold subsetPairs
  rw [List.range_succ, List.flatMap_append]
  simp

/-- The pair loop runs `k * (k - 1) / 2` times. -/
theorem subsetPairs_length (k : Nat) :
    (subsetPairs k).length = k * (k - 1) / 2 := by
  have h2 : (subsetPairs k).length * 2 = k * (k - 1) := by
    induction k with
    | zero => rfl
    | succ m ih =>
        rw [subsetPairs_succ, List.length_append, List.length_map,
          List.length_range, Nat.add_mul, ih, Nat.succ_sub_one]
        cases m with
        | zero => rfl
        | succ l =>
            rw [Nat.succ_sub_one]
            ring
  omega

/-- Every enumerated pair compares two distinct subsets, the second strictly
before the first. -/
theorem subsetPairs_mem_lt {k : Nat} {p : Nat × Nat} (h : p ∈ subsetPairs k) :
    p.2 < p.1 ∧ p.1 < k := by
  unfold subsetPairs at h
  rw [List.mem_flatMap] at h
  obtain ⟨i, hi, hp⟩ := h
  rw [List.mem_map] at hp
  obtain ⟨j, hj, rfl⟩ := hp
  exact ⟨List.mem_range.mp hj, List.mem_range.mp hi⟩

/-- Conversely, every pair of distinct subsets appears. -/
theorem subsetPairs_mem_of_lt {k i j : Nat} (hj : j < i) (hi : i < k) :
    (i, j) ∈ subsetPairs k := by
  unfold subsetPairs
  rw [List.mem_flatMap]
  exact ⟨i, List.mem_range.mpr hi, List.mem_map.mpr ⟨j, List.mem_range.mpr hj, rfl⟩⟩

/-- The pairs are enumerated in strictly increasing lexicographic order:
outer index ascending, inner index ascending within a fixed outer index. -/
theorem subsetPairs_pairwise (k : Nat) :
    List.Pairwise (fun p q : Nat × Nat => p.1 < q.1 ∨ (p.1 = q.1 ∧ p.2 < q.2))
      (subsetPairs k) := by
  induction k with
  | zero => exact List.Pairwise.nil
  | succ m ih =>
      rw [subsetPairs_succ]
      refine List.pairwise_append.mpr ⟨ih, ?_, ?_⟩
      · refine List.pairwise_map.mpr ?_
        refine List.Pairwise.imp ?_ (List.pairwise_lt_range m)
        intro a b hab
        exact Or.inr ⟨rfl, hab⟩
      · intro p hp q hq
        rw [List.mem_map] at hq
        obtain ⟨j, _, rfl⟩ := hq
        exact Or.inl (subsetPairs_mem_lt hp).2

/-- Flattening succeeds on a non-empty matrix with a non-empty flattening. -/
theorem flattenDistanceMatrix_ok {m : List (List ℚ)} (hm : m ≠ [])
    (hf : m.flatten ≠ []) : flattenDistanceMatrix m = .ok m.flatten := by
  cases m with
  | nil => exact absurd rfl hm
  | cons a l =>
      unfold flattenDistanceMatrix
      cases h : (a :: l).flatten with
      | nil => exact absurd h hf
      | cons x xs => rfl

/-- The only exception the flattening loop can raise is the `IndexError`. -/
theorem flattenDistanceMatrix_error {m : List (List ℚ)} {msg : String}
    (h : flattenDistanceMatrix m = .error msg) :
    msg = "IndexError: list index out of range" := by
  cases m with
  | nil => cases h; rfl
  | cons a l =>
      unfold flattenDistanceMatrix at h
      cases hf : (a :: l).flatten with
      | nil => rw [hf] at h; cases h; rfl
      | cons x xs => rw [hf] at h; cases h

/-- The only exception the pair-loop body can raise is the `IndexError`
coming from the flattening loop. -/
theorem buildColumn_error [Inhabited α] {dataset : List α} {bins : List ℚ}
    {distance_fct : α → α → ℚ} {subset_indices : List Nat} {i j : Nat}
    {msg : String}
    (h : buildColumn dataset bins distance_fct subset_indices i j = .error msg) :
    msg = "IndexError: list index out of range" := by
  unfold buildColumn at h
  dsimp only at h
  cases hf : flattenDistanceMatrix (create_distance_matrix dataset dataset
      distance_fct (subset_indices.getD i 0) (subset_indices.getD (i + 1) 0)
      (subset_indices.getD j 0) (subset_indices.getD (j + 1) 0)) with
  | error m => rw [hf] at h; cases h; exact flattenDistanceMatrix_error hf
  | ok dl => rw [hf] at h; cases h

/-- For a strictly increasing partition, each pair's loop body succeeds and
returns the pair's column. -/
theorem buildColumn_ok [Inhabited α] {dataset : List α} {bins : List ℚ}
    {distance_fct : α → α → ℚ} {subset_indices : List Nat}
    (hchain : List.Chain' (· < ·) subset_indices) {i j : Nat} (hj : j < i)
    (hi : i + 1 < subset_indices.length) :
    buildColumn dataset bins distance_fct subset_indices i j =
      .ok (columnOf dataset bins distance_fct subset_indices (i, j)) := by
  have hadj : ∀ t : Nat, t + 1 < subset_indices.length →
      subset_indices.getD t 0 < subset_indices.getD (t + 1) 0 := by
    intro t ht
    have h1 : t < subset_indices.length := Nat.lt_of_succ_lt ht
    rw [subset_indices.getD_eq_getElem 0 h1, subset_indices.getD_eq_getElem 0 ht]
    exact List.chain'_iff_get.mp hchain t (by omega)
  have hii := hadj i hi
  have hjj := hadj j (by omega)
  set dm := create_distance_matrix dataset dataset distance_fct
    (subset_indices.getD i 0) (subset_indices.getD (i + 1) 0)
    (subset_indices.getD j 0) (subset_indices.getD (j + 1) 0) with hdm
  have hrows : dm.length = subset_indices.getD (i + 1) 0 - subset_indices.getD i 0 := by
    rw [hdm]
    unfold create_distance_matrix
    rw [List.length_map, List.length_range]
  have hm : dm ≠ [] := by
    intro hnil
    rw [hnil, List.length_nil] at hrows
    omega
  have hflat : dm.flatten ≠ [] := by
    intro hnil
    rw [List.flatten_eq_nil_iff] at hnil
    have hmem : ∀ r ∈ dm, r.length =
        subset_indices.getD (j + 1) 0 - subset_indices.getD j 0 := by
      intro r hr
      rw [hdm] at hr
      unfold create_distance_matrix at hr
      rw [List.mem_map] at hr
      obtain ⟨t, _, rfl⟩ := hr
      rw [List.length_map, List.length_range]
    cases hdm2 : dm with
    | nil => exact hm hdm2
    | cons r l =>
        have h1 := hmem r (by rw [hdm2]; exact List.mem_cons_self r l)
        have h2 := hnil r (by rw [hdm2]; exact List.mem_cons_self r l)
        rw [h2, List.length_nil] at h1
        omega
  unfold buildColumn
  dsimp only
  rw [← hdm, flattenDistanceMatrix_ok hm hflat]
  rfl

/-- For a strictly increasing partition covering the dataset, the standard
assembler succeeds and returns the transpose of the list of pair columns
enumerated in loop order. -/
theorem assembler_ok_of_strict [Inhabited α] {dataset : List α} {bins : List ℚ}
    {distance_fct : α → α → ℚ} {subset_indices : List Nat}
    (hchain : List.Chain' (· < ·) subset_indices)
    (h0 : subset_indices.head? = some 0)
    (hlast : subset_indices.getLast? = some dataset.length) :
    empirical_cumulative_distribution_vector_list dataset bins distance_fct
        subset_indices =
      .ok (((subsetPairs (subset_indices.length - 1)).map
        (columnOf dataset bins distance_fct subset_indices)).transpose) := by
  have hle : List.Chain' (· ≤ ·) subset_indices :=
    hchain.imp fun _ _ h => le_of_lt h
  unfold empirical_cumulative_distribution_vector_list
  rw [if_pos ((subsetIndicesOrdered_iff _).mpr hle), h0]
  dsimp only
  rw [if_pos ⟨rfl, hlast⟩,
    mapM_ok_of_forall (g := columnOf dataset bins distance_fct subset_indices)
      ?_]
  · rfl
  · intro p hp
    obtain ⟨hj, hi⟩ := subsetPairs_mem_lt hp
    have hlen : 1 ≤ subset_indices.length := by
      cases subset_indices with
      | nil => cases h0
      | cons a l => simp
    exact buildColumn_ok hchain hj (by omega)

/-- **C2** (confirmed).  For every bin sequence and every non-empty distance
list, the ECDF vectorizer returns the vector whose `d`-th entry is the number
of distances strictly below `bins[d]` (strict `<`) divided by the list
length; when the bins are sorted ascending the entries are non-decreasing,
and every entry lies in `[0, 1]`. -/
theorem claim2_ecdf_vectorizer (L bins : List ℚ) (hL : L ≠ []) :
    ∃ q : List ℚ,
      empirical_cumulative_distribution_vector L bins = q.map PyFloat.val ∧
      q.length = bins.length ∧
      (∀ d : Nat, ∀ hd : d < bins.length,
        q.getD d 0 = (countLess L (bins.getD d 0) : ℚ) / (L.length : ℚ)) ∧
      (List.Sorted (· ≤ ·) bins → List.Sorted (· ≤ ·) q) ∧
      (∀ x ∈ q, 0 ≤ x ∧ x ≤ 1) := by
  have hlen : 0 < L.length := List.length_pos.mpr hL
  have hlenq : 0 < (L.length : ℚ) := by exact_mod_cast hlen
  refine ⟨bins.map fun b => (countLess L b : ℚ) / (L.length : ℚ), ?_, ?_, ?_, ?_, ?_⟩
  · unfold empirical_cumulative_distribution_vector
    rw [List.map_map]
    refine List.map_congr_left ?_
    intro b _
    rw [if_neg (by simpa [List.isEmpty_iff] using hL),
      indicator_sum_eq_countLess]
    rfl
  · rw [List.length_map]
  · intro d hd
    rw [List.getD_eq_getElem _ _ (by rw [List.length_map]; exact hd),
      List.getElem_map, List.getD_eq_getElem _ _ hd]
  · intro hbins
    refine List.pairwise_map.mpr (List.Pairwise.imp ?_ hbins)
    intro b c hbc
    exact (div_le_div_iff_of_pos_right hlenq).mpr
      (by exact_mod_cast countLess_mono L hbc)
  · intro x hx
    rw [List.mem_map] at hx
    obtain ⟨b, _, rfl⟩ := hx
    constructor
    · positivity
    · refine (div_le_one hlenq).mpr ?_
      exact_mod_cast List.length_filter_le _ L

/-- Once the partition validation has passed, the only exception the
assembler can raise is the flattening `IndexError` — never a partition
error. -/
theorem assembler_error_after_validation [Inhabited α] {dataset : List α}
    {bins : List ℚ} {distance_fct : α → α → ℚ} {subset_indices : List Nat}
    {msg : String} (hle : List.Chain' (· ≤ ·) subset_indices)
    (h0 : subset_indices.head? = some 0)
    (hlast : subset_indices.getLast? = some dataset.length)
    (h : empirical_cumulative_distribution_vector_list dataset bins
      distance_fct subset_indices = .error msg) :
    msg = "IndexError: list index out of range" := by
  unfold empirical_cumulative_distribution_vector_list at h
  rw [if_pos ((subsetIndicesOrdered_iff _).mpr hle), h0] at h
  dsimp only at h
  rw [if_pos ⟨rfl, hlast⟩] at h
  cases hm : (subsetPairs (subset_indices.length - 1)).mapM fun p =>
      buildColumn dataset bins distance_fct subset_indices p.1 p.2 with
  | ok rows => rw [hm] at h; cases h
  | error m =>
      rw [hm] at h
      cases h
      obtain ⟨p, _, hp⟩ := mapM_error_mem hm
      exact buildColumn_error hp

/-- If the partition validation fails, the assembler raises the matching
partition error. -/
theorem assembler_partition_error [Inhabited α] {dataset : List α}
    {bins : List ℚ} {distance_fct : α → α → ℚ} {subset_indices : List Nat}
    (hne : subset_indices ≠ [])
    (hbad : ¬ (List.Chain' (· ≤ ·) subset_indices ∧
      subset_indices.head? = some 0 ∧
      subset_indices.getLast? = some dataset.length)) :
    ∃ msg, empirical_cumulative_distribution_vector_list dataset bins
        distance_fct subset_indices = .error msg ∧
      (msg = "Subset indices are out of order." ∨
       msg = "Not all elements of the dataset are distributed into subsets.") := by
  unfold empirical_cumulative_distribution_vector_list
  by_cases hle : List.Chain' (· ≤ ·) subset_indices
  · rw [if_pos ((subsetIndicesOrdered_iff _).mpr hle)]
    cases hh : subset_indices.head? with
    | none => exact absurd (List.head?_eq_none_iff.mp hh) hne
    | some h0 =>
        dsimp only
        by_cases hcond : h0 = 0 ∧ subset_indices.getLast? = some dataset.length
        · exact absurd ⟨hle, by rw [hh, hcond.1], hcond.2⟩ hbad
        · rw [if_neg hcond]
          exact ⟨_, rfl, Or.inr rfl⟩
  · rw [if_neg (by simpa using (subsetIndicesOrdered_iff subset_indices).not.mpr hle)]
    exact ⟨_, rfl, Or.inl rfl⟩

/-- Witness for C2 at `L = [1]`, `bins = [0, 2]`. -/
theorem claim2_ecdf_vectorizer_witness :
    ∃ q : List ℚ,
      empirical_cumulative_distribution_vector [1] [0, 2] = q.map PyFloat.val ∧
      q.length = ([0, 2] : List ℚ).length ∧
      (∀ d : Nat, ∀ hd : d < ([0, 2] : List ℚ).length,
        q.getD d 0 = (countLess [1] (([0, 2] : List ℚ).getD d 0) : ℚ) /
          (([1] : List ℚ).length : ℚ)) ∧
      (List.Sorted (· ≤ ·) ([0, 2] : List ℚ) → List.Sorted (· ≤ ·) q) ∧
      (∀ x ∈ q, 0 ≤ x ∧ x ≤ 1) :=
  claim2_ecdf_vectorizer [1] [0, 2] (by decide)

/-- **C3** (counterexample).  `[0, 3, 3, 6]` is a valid partition of a
6-element dataset into `k = 3` subsets in the sense of the data model
(non-decreasing, starting at 0, ending at the dataset length, zero-length
subsets permitted), yet the assembler raises an `IndexError` instead of
producing `3 * 2 / 2 = 3` columns: the pair `(1, 0)` involves the empty
subset, whose distance matrix is the empty list, and the flattening loop
evaluates `distance_list[0]` on it. -/
theorem claim3_counterexample :
    empirical_cumulative_distribution_vector_list ([1, 2, 3, 4, 5, 6] : List ℚ)
        [1, 2, 3, 4, 5] (fun a b => |a - b|) [0, 3, 3, 6] =
      .error "IndexError: list index out of range" ∧
    ∀ result : List (List PyFloat),
      empirical_cumulative_distribution_vector_list ([1, 2, 3, 4, 5, 6] : List ℚ)
          [1, 2, 3, 4, 5] (fun a b => |a - b|) [0, 3, 3, 6] ≠ .ok result := by
  have h1 : empirical_cumulative_distribution_vector_list
      ([1, 2, 3, 4, 5, 6] : List ℚ) [1, 2, 3, 4, 5] (fun a b => |a - b|)
      [0, 3, 3, 6] = .error "IndexError: list index out of range" := rfl
  refine ⟨h1, fun result h => ?_⟩
  rw [h1] at h
  cases h

/-- **C3** (amended).  For every dataset, bins, distance function and valid
partition all of whose `k` subsets are non-empty (`subset_indices` strictly
increasing, starting at 0 and ending at the dataset length), the standard
assembler succeeds; the matrix it returns is the transpose of the list of
per-pair columns, which has exactly `k * (k - 1) / 2` entries, one per pair
`(i, j)` with `j < i < k` (so no subset is ever paired with itself), and the
pairs are enumerated with the outer index ascending and the inner index
ascending below it: `(1,0), (2,0), (2,1), (3,0), …`.  (The claim as frozen
also covered partitions with empty subsets; those make the assembler raise
an `IndexError`, see the counterexample.) -/
theorem claim3_standard_assembler_columns [Inhabited α] (dataset : List α)
    (bins : List ℚ) (distance_fct : α → α → ℚ) (subset_indices : List Nat)
    (hchain : List.Chain' (· < ·) subset_indices)
    (h0 : subset_indices.head? = some 0)
    (hlast : subset_indices.getLast? = some dataset.length) :
    ∃ rows : List (List PyFloat),
      empirical_cumulative_distribution_vector_list dataset bins distance_fct
          subset_indices = .ok rows.transpose ∧
      rows.length =
        (subset_indices.length - 1) * (subset_indices.length - 1 - 1) / 2 ∧
      rows = (subsetPairs (subset_indices.length - 1)).map
        (columnOf dataset bins distance_fct subset_indices) ∧
      (∀ p ∈ subsetPairs (subset_indices.length - 1),
        p.2 < p.1 ∧ p.1 < subset_indices.length - 1) ∧
      (∀ i j : Nat, j < i → i < subset_indices.length - 1 →
        (i, j) ∈ subsetPairs (subset_indices.length - 1)) ∧
      List.Pairwise
        (fun p q : Nat × Nat => p.1 < q.1 ∨ (p.1 = q.1 ∧ p.2 < q.2))
        (subsetPairs (subset_indices.length - 1)) := by
  refine ⟨_, assembler_ok_of_strict hchain h0 hlast, ?_, rfl,
    fun p hp => subsetPairs_mem_lt hp,
    fun i j hj hi => subsetPairs_mem_of_lt hj hi,
    subsetPairs_pairwise _⟩
  rw [List.length_map, subsetPairs_length]

/-- Witness for C3 on the round-trip scenario: dataset `[1..6]`, absolute
difference, partition `[0, 3, 6]` (two subsets of size 3). -/
theorem claim3_standard_assembler_columns_witness :
    ∃ rows : List (List PyFloat),
      empirical_cumulative_distribution_vector_list ([1, 2, 3, 4, 5, 6] : List ℚ)
          [1, 2, 3, 4, 5] (fun a b => |a - b|) [0, 3, 6] = .ok rows.transpose ∧
      rows.length = (([0, 3, 6] : List Nat).length - 1) *
        (([0, 3, 6] : List Nat).length - 1 - 1) / 2 ∧
      rows = (subsetPairs (([0, 3, 6] : List Nat).length - 1)).map
        (columnOf ([1, 2, 3, 4, 5, 6] : List ℚ) [1, 2, 3, 4, 5]
          (fun a b => |a - b|) [0, 3, 6]) ∧
      (∀ p ∈ subsetPairs (([0, 3, 6] : List Nat).length - 1),
        p.2 < p.1 ∧ p.1 < ([0, 3, 6] : List Nat).length - 1) ∧
      (∀ i j : Nat, j < i → i < ([0, 3, 6] : List Nat).length - 1 →
        (i, j) ∈ subsetPairs (([0, 3, 6] : List Nat).length - 1)) ∧
      List.Pairwise
        (fun p q : Nat × Nat => p.1 < q.1 ∨ (p.1 = q.1 ∧ p.2 < q.2))
        (subsetPairs (([0, 3, 6] : List Nat).length - 1)) :=
  claim3_standard_assembler_columns [1, 2, 3, 4, 5, 6] [1, 2, 3, 4, 5]
    (fun a b => |a - b|) [0, 3, 6] (by norm_num [List.chain'_cons]) rfl (by decide)

/-- **C4** (counterexample).  The claim asserts that the assembler succeeds
on `[0, 3, 3, 6]` over a 6-element dataset.  It does not: the partition
passes validation (no partition error is raised), but the flattening loop
then evaluates `distance_list[0]` on the empty distance matrix of the pair
`(1, 0)` — whose first subset is empty — and raises an `IndexError`. -/
theorem claim4_counterexample :
    subsetIndicesOrdered [0, 3, 3, 6] = true ∧
    ([0, 3, 3, 6] : List Nat).head? = some 0 ∧
    ([0, 3, 3, 6] : List Nat).getLast? =
      some ([1, 2, 3, 4, 5, 6] : List ℚ).length ∧
    empirical_cumulative_distribution_vector_list ([1, 2, 3, 4, 5, 6] : List ℚ)
        [1] (fun a b => a - b) [0, 3, 3, 6] =
      .error "IndexError: list index out of range" :=
  ⟨rfl, rfl, rfl, rfl⟩

/-- **C4** (amended).  The standard assembler raises a *partition* error
exactly when the validation fails — `subset_indices` not non-decreasing, or
not starting at 0, or not ending at `len(dataset)`; in particular
`[0, 2, 5]` over a 6-element dataset raises one.  `[0, 3, 3, 6]` over a
6-element dataset passes the validation (zero-length subsets are permitted
by the checks), but the assembler does not succeed on it: it subsequently
fails with an `IndexError` when the flattening loop indexes into the empty
distance matrix of the pair involving the empty subset. -/
theorem claim4_partition_validation :
    (∀ (α : Type) (_ : Inhabited α) (dataset : List α) (bins : List ℚ)
      (distance_fct : α → α → ℚ) (subset_indices : List Nat),
      subset_indices ≠ [] →
      ((∃ msg, empirical_cumulative_distribution_vector_list dataset bins
          distance_fct subset_indices = .error msg ∧
        (msg = "Subset indices are out of order." ∨
         msg = "Not all elements of the dataset are distributed into subsets.")) ↔
      ¬ (List.Chain' (· ≤ ·) subset_indices ∧
        subset_indices.head? = some 0 ∧
        subset_indices.getLast? = some dataset.length))) ∧
    empirical_cumulative_distribution_vector_list ([1, 2, 3, 4, 5, 6] : List ℚ)
        [1] (fun a b => a - b) [0, 2, 5] =
      .error "Not all elements of the dataset are distributed into subsets." ∧
    (∃ msg, empirical_cumulative_distribution_vector_list
        ([1, 2, 3, 4, 5, 6] : List ℚ) [1] (fun a b => a - b) [0, 3, 3, 6] =
          .error msg ∧
      msg ≠ "Subset indices are out of order." ∧
      msg ≠ "Not all elements of the dataset are distributed into subsets.") := by
  refine ⟨?_, rfl, "IndexError: list index out of range", rfl, by decide, by decide⟩
  intro α hinh dataset bins distance_fct subset_indices hne
  constructor
  · rintro ⟨msg, herr, hmsg⟩ hvalid
    have hix := assembler_error_after_validation hvalid.1 hvalid.2.1 hvalid.2.2 herr
    rw [hix] at hmsg
    rcases hmsg with h | h <;> exact absurd h (by decide)
  · exact assembler_partition_error hne

/-- Witness for C4: `subset_indices = [1]` fails the start/end validation on
an empty dataset and raises the covering partition error. -/
theorem claim4_partition_validation_witness :
    ∃ msg, empirical_cumulative_distribution_vector_list ([] : List ℚ) [1]
        (fun a b => a - b) [1] = .error msg ∧
      (msg = "Subset indices are out of order." ∨
       msg = "Not all elements of the dataset are distributed into subsets.") :=
  (claim4_partition_validation.1 ℚ ⟨0⟩ [] [1] (fun a b => a - b) [1]
    (by decide)).mpr (by simp)

/-- **C5** (code bug).  On an empty distance list the vectorizer does not
raise any error: `np.sum([]) / len([])` is the float division `0.0 / 0`,
which numpy answers with `nan` and a mere `RuntimeWarning`, so the function
silently returns a vector of `nan` — the explicit empty-input error the
design requires does not exist in the code. -/
theorem claim5_empty_distance_list_nan :
    empirical_cumulative_distribution_vector ([] : List ℚ) [0] =
      [PyFloat.nan] := rfl

/-- A loop whose first iteration (and in fact every iteration) fails raises
that failure. -/
theorem mapM_error_of_forall {α β : Type} {l : List α} {f : α → Except String β}
    {msg : String} (hl : l ≠ []) (h : ∀ x ∈ l, f x = .error msg) :
    l.mapM f = .error msg := by
  cases l with
  | nil => exact absurd rfl hl
  | cons a l =>
      rw [List.mapM_cons, h a (List.mem_cons_self a l)]
      rfl

/-- **C6** (counterexample).  With datasets of sizes `A = 2` and `B = 3` and
`n_samples = 1`, the bootstrap assembler produces no column at all: numpy
fancy indexing with index vectors of lengths 2 and 3 raises a shape-mismatch
`IndexError` — it does not pair them positionally up to `min(A, B)`. -/
theorem claim6_counterexample :
    empirical_cumulative_distribution_vector_list_bootstrap ([0, 1] : List ℚ)
        [0, 1, 2] [1] (fun a b => a - b) 1 (fun _ _ => 0) (fun _ _ => 0) =
      .error "IndexError: shape mismatch: indexing arrays could not be broadcast together" :=
  rfl

/-- **C6** (amended).  When the two datasets have the same non-zero size
`A = B`, the bootstrap assembler produces exactly `n_samples` columns, the
`s`-th being the ECDF vector of the positional pairing of the two index
vectors drawn for sample `s` (all `A` positions are used).  When `A ≠ B`
and neither is 1, numpy fancy indexing raises a shape-mismatch `IndexError`
on the first sample, so no columns are produced — nothing is silently
truncated to `min(A, B)`. -/
theorem claim6_bootstrap_assembler :
    (∀ (α : Type) (_ : Inhabited α) (dataset_a dataset_b : List α)
      (bins : List ℚ) (distance_fct : α → α → ℚ) (n_samples : Nat)
      (rngA rngB : Nat → Nat → Nat),
      dataset_a.length = dataset_b.length → dataset_a ≠ [] →
      ∃ rows : List (List PyFloat),
        empirical_cumulative_distribution_vector_list_bootstrap dataset_a
          dataset_b bins distance_fct n_samples rngA rngB = .ok rows.transpose ∧
        rows.length = n_samples ∧
        rows = (List.range n_samples).map fun s =>
          empirical_cumulative_distribution_vector
            (bootstrapDistances dataset_a dataset_b distance_fct rngA rngB s)
            bins) ∧
    (∀ (α : Type) (_ : Inhabited α) (dataset_a dataset_b : List α)
      (bins : List ℚ) (distance_fct : α → α → ℚ) (n_samples : Nat)
      (rngA rngB : Nat → Nat → Nat),
      1 < dataset_a.length → 1 < dataset_b.length →
      dataset_a.length ≠ dataset_b.length → 0 < n_samples →
      empirical_cumulative_distribution_vector_list_bootstrap dataset_a
        dataset_b bins distance_fct n_samples rngA rngB =
      .error "IndexError: shape mismatch: indexing arrays could not be broadcast together") := by
  constructor
  · intro α hinh dataset_a dataset_b bins distance_fct n_samples rngA rngB hab hne
    have hA : dataset_a.length ≠ 0 := by
      simpa [List.length_eq_zero] using hne
    refine ⟨(List.range n_samples).map fun s =>
      empirical_cumulative_distribution_vector
        (bootstrapDistances dataset_a dataset_b distance_fct rngA rngB s) bins,
      ?_, by rw [List.length_map, List.length_range], rfl⟩
    unfold empirical_cumulative_distribution_vector_list_bootstrap
    dsimp only
    rw [mapM_ok_of_forall (g := fun s =>
      empirical_cumulative_distribution_vector
        (bootstrapDistances dataset_a dataset_b distance_fct rngA rngB s) bins)
      ?_]
    · rfl
    · intro s _
      unfold bootstrapSample
      rw [if_neg (by rw [← hab]; tauto)]
      unfold fancyIndexPair
      rw [if_pos (by unfold drawIndices; rw [List.length_map, List.length_map,
        List.length_range, List.length_range, hab])]
      rfl
  · intro α hinh dataset_a dataset_b bins distance_fct n_samples rngA rngB hA hB hab hN
    unfold empirical_cumulative_distribution_vector_list_bootstrap
    dsimp only
    rw [mapM_error_of_forall (by
        intro hnil
        rw [List.range_eq_nil] at hnil
        omega) ?_]
    · rfl
    · intro s _
      unfold bootstrapSample
      rw [if_neg (by omega)]
      unfold fancyIndexPair
      have hlenA : (drawIndices rngA s dataset_a.length).length =
          dataset_a.length := by
        unfold drawIndices
        rw [List.length_map, List.length_range]
      have hlenB : (drawIndices rngB s dataset_b.length).length =
          dataset_b.length := by
        unfold drawIndices
        rw [List.length_map, List.length_range]
      rw [if_neg (by rw [hlenA, hlenB]; exact hab),
        if_neg (by rw [hlenA]; omega), if_neg (by rw [hlenB]; omega)]
      rfl

/-- Witness for C6: two one-element datasets, two samples. -/
theorem claim6_bootstrap_assembler_witness :
    ∃ rows : List (List PyFloat),
      empirical_cumulative_distribution_vector_list_bootstrap ([0] : List ℚ)
        [3] [1] (fun a b => a - b) 2 (fun _ _ => 0) (fun _ _ => 0) =
        .ok rows.transpose ∧
      rows.length = 2 ∧
      rows = (List.range 2).map fun s =>
        empirical_cumulative_distribution_vector
          (bootstrapDistances ([0] : List ℚ) [3] (fun a b => a - b)
            (fun _ _ => 0) (fun _ _ => 0) s) [1] :=
  claim6_bootstrap_assembler.1 ℚ ⟨0⟩ [0] [3] [1] (fun a b => a - b) 2
    (fun _ _ => 0) (fun _ _ => 0) rfl (by decide)

/-- The cumulative sums start at 0. -/
theorem cumulativeIndices_head (subset_sizes : List Nat) :
    (cumulativeIndices subset_sizes).head? = some 0 := by
  unfold cumulativeIndices
  rw [List.range_succ_eq_map, List.map_cons]
  rfl

/-- The cumulative sums end at the total size. -/
theorem cumulativeIndices_last (subset_sizes : List Nat) :
    (cumulativeIndices subset_sizes).getLast? = some subset_sizes.sum := by
  unfold cumulativeIndices
  rw [List.range_succ, List.map_append, List.map_cons, List.map_nil,
    List.getLast?_concat, List.take_of_length_le (le_refl _), ]

/-- With every subset size positive, the cumulative sums are strictly
increasing. -/
theorem cumulativeIndices_chain (subset_sizes : List Nat)
    (hpos : ∀ s ∈ subset_sizes, 0 < s) :
    List.Chain' (· < ·) (cumulativeIndices subset_sizes) := by
  unfold cumulativeIndices
  rw [List.chain'_map, List.chain'_range_succ]
  intro m hm
  show (subset_sizes.take m).sum < (subset_sizes.take (m + 1)).sum
  have hsum : (subset_sizes.take (m + 1)).sum
      = (subset_sizes.take m).sum + subset_sizes.get ⟨m, hm⟩ := by
    rw [List.take_succ, List.getElem?_eq_getElem hm, List.sum_append]
    simp
  have hpos' := hpos (subset_sizes.get ⟨m, hm⟩) (subset_sizes.get_mem _ _)
  omega

/-- **C7** (counterexample).  `subset_sizes = [1, 2, 3]` has three distinct
values, yet constructing the standard estimator over the 6-element dataset
`[1..6]` succeeds: `objective_function.__init__` contains no constraint on
the number of distinct subset sizes, so no configuration error is raised. -/
theorem claim7_counterexample :
    ([1, 2, 3] : List Nat).dedup.length = 3 ∧
    ∃ st, objective_function_init ([1, 2, 3, 4, 5, 6] : List ℚ) [1]
      (fun a b => a - b) [1, 2, 3] = .ok st :=
  ⟨by decide, ⟨_, rfl⟩⟩

/-- **C7** (amended).  The standard constructor derives its partition indices
from the cumulative sums of `subset_sizes` — that part of the claim holds —
but it imposes no constraint on the number of distinct subset sizes:
construction succeeds for every `subset_sizes` list of positive sizes
summing to the dataset length, no matter how many distinct values it
contains (see the counterexample with three distinct sizes).  No
configuration error for "more than two distinct subset sizes" exists in the
code. -/
theorem claim7_standard_constructor :
    (∀ (α : Type) (_ : Inhabited α) (dataset : List α) (bins : List ℚ)
      (distance_fct : α → α → ℚ) (subset_sizes : List Nat)
      (st : ObjectiveFunctionState α),
      objective_function_init dataset bins distance_fct subset_sizes = .ok st →
      st.subset_indices = cumulativeIndices subset_sizes) ∧
    (∀ (α : Type) (_ : Inhabited α) (dataset : List α) (bins : List ℚ)
      (distance_fct : α → α → ℚ) (subset_sizes : List Nat),
      (∀ s ∈ subset_sizes, 0 < s) → subset_sizes.sum = dataset.length →
      ∃ st, objective_function_init dataset bins distance_fct subset_sizes =
        .ok st ∧ st.subset_indices = cumulativeIndices subset_sizes) := by
  constructor
  · intro α hinh dataset bins distance_fct subset_sizes st h
    unfold objective_function_init at h
    dsimp only at h
    cases hasm : empirical_cumulative_distribution_vector_list dataset bins
        distance_fct (cumulativeIndices subset_sizes) with
    | error m =>
        rw [show ((List.range (subset_sizes.length + 1)).map fun i =>
          (subset_sizes.take i).sum) = cumulativeIndices subset_sizes from rfl,
          hasm] at h
        cases h
    | ok rows =>
        rw [show ((List.range (subset_sizes.length + 1)).map fun i =>
          (subset_sizes.take i).sum) = cumulativeIndices subset_sizes from rfl,
          hasm] at h
        cases h
        rfl
  · intro α hinh dataset bins distance_fct subset_sizes hpos hsum
    have hok := @assembler_ok_of_strict α hinh dataset bins distance_fct
      (cumulativeIndices subset_sizes)
      (cumulativeIndices_chain subset_sizes hpos)
      (cumulativeIndices_head subset_sizes)
      (by rw [cumulativeIndices_last, hsum])
    refine ⟨⟨dataset, bins, cumulativeIndices subset_sizes,
      ((subsetPairs ((cumulativeIndices subset_sizes).length - 1)).map
        (columnOf dataset bins distance_fct (cumulativeIndices subset_sizes))).transpose,
      mean_of_ecdf_vectors
        (((subsetPairs ((cumulativeIndices subset_sizes).length - 1)).map
          (columnOf dataset bins distance_fct (cumulativeIndices subset_sizes))).transpose),
      covariance_of_ecdf_vectors
        (((subsetPairs ((cumulativeIndices subset_sizes).length - 1)).map
          (columnOf dataset bins distance_fct (cumulativeIndices subset_sizes))).transpose),
      false⟩, ?_, rfl⟩
    unfold objective_function_init
    dsimp only
    rw [show ((List.range (subset_sizes.length + 1)).map fun i =>
      (subset_sizes.take i).sum) = cumulativeIndices subset_sizes from rfl,
      hok]
    rfl

/-- Witness for C7: dataset `[1, 2, 3]`, subset sizes `[1, 2]`. -/
theorem claim7_standard_constructor_witness :
    ∃ st, objective_function_init ([1, 2, 3] : List ℚ) [1]
        (fun a b => a - b) [1, 2] = .ok st ∧
      st.subset_indices = cumulativeIndices [1, 2] :=
  claim7_standard_constructor.2 ℚ ⟨0⟩ [1, 2, 3] [1] (fun a b => a - b) [1, 2]
    (by decide) (by decide)

/-- A loop that collects successfully succeeded at every element. -/
theorem mapM_ok_forall {α β : Type} {l : List α} {f : α → Except String β}
    {ys : List β} (h : l.mapM f = .ok ys) : ∀ x ∈ l, ∃ y, f x = .ok y := by
  induction l generalizing ys with
  | nil => intro x hx; cases hx
  | cons a l ih =>
      rw [List.mapM_cons] at h
      cases hfa : f a with
      | error m => rw [hfa] at h; cases h
      | ok b =>
          rw [hfa] at h
          cases hl : l.mapM f with
          | error m => rw [hl] at h; cases h
          | ok bs =>
              intro x hx
              rcases List.mem_cons.mp hx with rfl | hx
              · exact ⟨b, hfa⟩
              · exact ih hl x hx

/-- Copying one member block succeeds exactly when each of its rows is
broadcastable into the preallocated width. -/
theorem broadcastBlock_ok_iff {ncols : Nat} {m : List (List PyFloat)} :
    (∃ b, broadcastBlock ncols m = .ok b) ↔
      ∀ row ∈ m, row.length = ncols ∨ row.length = 1 := by
  constructor
  · rintro ⟨b, hb⟩ row hrow
    obtain ⟨y, hy⟩ := mapM_ok_forall hb row hrow
    by_cases h1 : row.length = ncols
    · exact Or.inl h1
    by_cases h2 : row.length = 1
    · exact Or.inr h2
    rw [if_neg h1, if_neg h2] at hy
    cases hy
  · intro h
    refine ⟨m.map fun row => if row.length = ncols then row
      else List.replicate ncols (row.headD .nan), ?_⟩
    unfold broadcastBlock
    refine mapM_ok_of_forall ?_
    intro row hrow
    rcases h row hrow with h1 | h1
    · rw [if_pos h1, if_pos h1]
    · by_cases h2 : row.length = ncols
      · rw [if_pos h2, if_pos h2]
      · rw [if_neg h2, if_pos h1, if_neg h2]

/-- Explicit successful value of a broadcastable block copy. -/
theorem broadcastBlock_ok_of {ncols : Nat} {m : List (List PyFloat)}
    (h : ∀ row ∈ m, row.length = ncols ∨ row.length = 1) :
    broadcastBlock ncols m = .ok (m.map fun row =>
      if row.length = ncols then row
      else List.replicate ncols (row.headD .nan)) := by
  unfold broadcastBlock
  refine mapM_ok_of_forall ?_
  intro row hrow
  rcases h row hrow with h1 | h1
  · rw [if_pos h1, if_pos h1]
  · by_cases h2 : row.length = ncols
    · rw [if_pos h2, if_pos h2]
    · rw [if_neg h2, if_pos h1, if_neg h2]

/-- **C8** (counterexample).  Two members whose ECDF matrices have different
numbers of columns (2 versus 1): the constructor does not raise — the
mismatched single-column block is silently broadcast across the
preallocated width and construction completes (the source merely prints an
`ERROR:` message and carries on). -/
theorem claim8_counterexample :
    ecdfCols [[PyFloat.val 0, PyFloat.val 0]] ≠ ecdfCols [[PyFloat.val 1]] ∧
    ∃ st, multiple_objectives_init
      [[[PyFloat.val 0, PyFloat.val 0]], [[PyFloat.val 1]]] = .ok st ∧
    st.printed_error = true :=
  ⟨by decide, ⟨_, rfl, rfl⟩⟩

/-- **C8** (amended).  For member estimators with rectangular, non-empty
ECDF matrices (finite entries, first member at least two columns wide — the
regime in which the omitted spectral-condition check cannot raise),
construction never raises a dedicated shape-mismatch exception: a mismatch
in column counts only sets the printed-error message flag.  Construction
succeeds iff every member's column count equals the first member's or is
exactly 1 (numpy broadcasting silently widens single-column blocks);
otherwise it aborts with the broadcasting `ValueError` — which does happen
before any evaluation. -/
theorem claim8_multiple_constructor :
    ∀ members : List (List (List PyFloat)),
      members ≠ [] →
      (∀ m ∈ members, m ≠ [] ∧ ∀ row ∈ m, row.length = ecdfCols m) →
      2 ≤ ecdfCols (members.headD []) →
      (∀ m ∈ members, ∀ row ∈ m, ∀ x ∈ row, x ≠ PyFloat.nan) →
      (((∃ st, multiple_objectives_init members = .ok st) ↔
          ∀ m ∈ members, ecdfCols m = ecdfCols (members.headD []) ∨
            ecdfCols m = 1) ∧
        ∀ st, multiple_objectives_init members = .ok st →
          (st.printed_error = true ↔
            ∃ m ∈ members, ecdfCols m ≠ ecdfCols (members.headD []))) := by
  intro members hne hrect hc2 hfin
  cases members with
  | nil => exact absurd rfl hne
  | cons m0 rest =>
      constructor
      · constructor
        · rintro ⟨st, hst⟩
          unfold multiple_objectives_init at hst
          simp only [List.head?_cons] at hst
          cases hmm : (m0 :: rest).mapM
              (fun m => broadcastBlock (ecdfCols m0) m) with
          | error m =>
              rw [hmm] at hst
              cases hst
          | ok blocks =>
              intro m hm
              have hex := mapM_ok_forall hmm m hm
              have hbl := broadcastBlock_ok_iff.mp hex
              obtain ⟨hmne, hrows⟩ := hrect m hm
              cases m with
              | nil => exact absurd rfl hmne
              | cons r rs =>
                  have hr := hbl r (List.mem_cons_self r rs)
                  rw [hrows r (List.mem_cons_self r rs)] at hr
                  exact hr
        · intro hall
          have hmapok : (m0 :: rest).mapM
              (fun m => broadcastBlock (ecdfCols m0) m) =
              .ok ((m0 :: rest).map fun m => m.map fun row =>
                if row.length = ecdfCols m0 then row
                else List.replicate (ecdfCols m0) (row.headD .nan)) := by
            refine mapM_ok_of_forall ?_
            intro m hm
            refine broadcastBlock_ok_of ?_
            intro row hrow
            rw [(hrect m hm).2 row hrow]
            exact hall m hm
          refine ⟨⟨(((m0 :: rest).map fun m => m.map fun row =>
              if row.length = ecdfCols m0 then row
              else List.replicate (ecdfCols m0) (row.headD .nan)).flatten),
            mean_of_ecdf_vectors (((m0 :: rest).map fun m => m.map fun row =>
              if row.length = ecdfCols m0 then row
              else List.replicate (ecdfCols m0) (row.headD .nan)).flatten),
            covariance_of_ecdf_vectors (((m0 :: rest).map fun m =>
              m.map fun row =>
              if row.length = ecdfCols m0 then row
              else List.replicate (ecdfCols m0) (row.headD .nan)).flatten),
            decide (∃ m ∈ m0 :: rest, ecdfCols m ≠ ecdfCols m0)⟩, ?_⟩
          unfold multiple_objectives_init
          simp only [List.head?_cons]
          rw [hmapok]
          rfl
      · intro st hst
        unfold multiple_objectives_init at hst
        simp only [List.head?_cons] at hst
        cases hmm : (m0 :: rest).mapM
            (fun m => broadcastBlock (ecdfCols m0) m) with
        | error m =>
            rw [hmm] at hst
            cases hst
        | ok blocks =>
            rw [hmm] at hst
            cases hst
            exact decide_eq_true_iff

/-- Witness for C8: a single two-column member; construction succeeds. -/
theorem claim8_multiple_constructor_witness :
    ∃ st, multiple_objectives_init [[[PyFloat.val 0, PyFloat.val 1]]] =
      .ok st :=
  (claim8_multiple_constructor [[[PyFloat.val 0, PyFloat.val 1]]] (by decide)
    (by decide) (by decide) (by decide)).1.mpr (by decide)

/-- **C9** (code bug).  `multiple_objectives.evaluate` never returns a score:
whatever the member estimators and the candidate dataset, the list of member
scores is handed to `np.ndarray.flatten`, which raises a `TypeError` on a
plain Python list (and the module-level evaluator name the method would then
call does not even exist in `objective_function.py`).  The concatenation of
per-member ECDF vectors described by the specification is not what the code
does: it collects scalar `evaluate` scores, then crashes. -/
theorem claim9_multiple_evaluate_crashes :
    ∀ (α : Type) (members : List (List α → Except String ℚ))
      (dataset : List α),
      ∃ msg, multiple_objectives_evaluate members dataset = .error msg := by
  intro α members dataset
  unfold multiple_objectives_evaluate
  cases hm : members.mapM fun ev => ev dataset with
  | error m => exact ⟨m, rfl⟩
  | ok matrix =>
      exact ⟨"TypeError: ndarray.flatten does not apply to a list object", rfl⟩

/-- **C10** (confirmed).  For every pair of non-empty datasets, bins,
distance function and `n_samples ≥ 1`, constructing
`bootstrap_objective_function` raises an `AttributeError`: the module-local
bootstrap assembler keeps the distance matrix as a plain nested Python list
and the first loop iteration reads its (non-existent) `.shape` attribute. -/
theorem claim10_bootstrap_constructor_attribute_error :
    ∀ (α : Type) (_ : Inhabited α) (dataset_a dataset_b : List α)
      (bins : List ℚ) (distance_fct : α → α → ℚ) (n_samples : Nat)
      (rngA rngB : Nat → Nat → Nat),
      dataset_a ≠ [] → dataset_b ≠ [] → 1 ≤ n_samples →
      bootstrap_objective_function_init dataset_a dataset_b bins distance_fct
        n_samples rngA rngB =
      .error "AttributeError: list object has no attribute shape" := by
  intro α hinh dataset_a dataset_b bins distance_fct n_samples rngA rngB
    hna hnb hN
  unfold bootstrap_objective_function_init
  unfold empirical_cumulative_distribution_vector_list_bootstrap_of
  dsimp only
  rw [mapM_error_of_forall (by
      intro hnil
      rw [List.range_eq_nil] at hnil
      omega) ?_]
  · rfl
  · intro s _
    rfl

/-- Witness for C10 with two singleton datasets and one sample. -/
theorem claim10_bootstrap_constructor_attribute_error_witness :
    bootstrap_objective_function_init ([0] : List ℚ) [1] [1]
      (fun a b => a - b) 1 (fun _ _ => 0) (fun _ _ => 0) =
    .error "AttributeError: list object has no attribute shape" :=
  claim10_bootstrap_constructor_attribute_error ℚ ⟨0⟩ [0] [1] [1]
    (fun a b => a - b) 1 (fun _ _ => 0) (fun _ _ => 0) (by decide) (by decide)
    (by decide)

/-- On a non-singular matrix the idealised solve returns `C⁻¹ * b`. -/
theorem npSolve_eq_inv_mulVec {n : ℕ} {C : Matrix (Fin n) (Fin n) ℚ}
    (h : C.det ≠ 0) (b : Fin n → ℚ) : npSolve C b = some (C⁻¹.mulVec b) := by
  unfold npSolve
  rw [if_neg h, Matrix.inv_def, Matrix.smul_mulVec_assoc, Ring.inverse_eq_inv]

/-- The vector returned by a successful solve really solves the system. -/
theorem npSolve_solves {n : ℕ} {C : Matrix (Fin n) (Fin n) ℚ}
    (h : C.det ≠ 0) (b : Fin n → ℚ) : C.mulVec (C⁻¹.mulVec b) = b := by
  rw [Matrix.mulVec_mulVec, Matrix.mul_nonsing_inv C (isUnit_iff_ne_zero.mpr h),
    Matrix.one_mulVec]

/-- **C1** (counterexample).  The `utils.py` evaluator, in a state whose
warned flag is already set and whose covariance matrix `[[2]]` is
non-singular, returns the Euclidean fallback `1` instead of the Mahalanobis
value `(m-v)·C⁻¹·(m-v) = 1/2`: once the flag is set, the `utils.py` variant
never attempts the solve again. -/
theorem claim1_counterexample :
    (eval_from_ecdf_utils ![1] (Matrix.of ![![(2 : ℚ)]]) true ![0]).1 = 1 ∧
    (Matrix.of ![![(2 : ℚ)]]).det ≠ 0 ∧
    (![1] - ![0]) ⬝ᵥ ((Matrix.of ![![(2 : ℚ)]])⁻¹.mulVec (![1] - ![0])) =
      1 / 2 ∧
    (1 : ℚ) ≠ 1 / 2 := by
  have hdet : (Matrix.of ![![(2 : ℚ)]]).det ≠ 0 := by
    rw [Matrix.det_fin_one]
    norm_num
  refine ⟨?_, hdet, ?_, by norm_num⟩
  · simp [eval_from_ecdf_utils, Matrix.dotProduct, Fin.sum_univ_one]
  · have h := npSolve_eq_inv_mulVec hdet (![1] - ![0])
    have h2 : npSolve (Matrix.of ![![(2 : ℚ)]]) (![1] - ![0]) =
        some fun _ => 1 / 2 := by
      unfold npSolve
      rw [if_neg hdet]
      congr 1
      funext i
      fin_cases i
      simp [Matrix.adjugate_fin_one, Matrix.mulVec, Matrix.dotProduct,
        Fin.sum_univ_one, Matrix.det_fin_one]
    rw [h2] at h
    have h3 : (Matrix.of ![![(2 : ℚ)]])⁻¹.mulVec (![1] - ![0]) =
        fun _ => 1 / 2 := (Option.some_injective _ h).symm
    rw [h3]
    simp [Matrix.dotProduct, Fin.sum_univ_one]

/-- **C1** (amended).  The `objective_function.py` evaluator behaves exactly
as the claim states, for every state: with a non-singular covariance it
returns the Mahalanobis score `(m-v)·C⁻¹·(m-v)` through a linear solve
(whose result genuinely solves `C·x = m-v`) and leaves the flag unchanged;
with a singular covariance it returns the Euclidean fallback `(m-v)·(m-v)`,
sets the flag, and prints the warning iff the flag was not already set; it
always returns (both outcomes are ordinary returns), and the flag is set at
most once (it is never cleared, and the warning fires only from the unset
state).  The `utils.py` evaluator agrees with all of this only while the
flag is unset: once the flag is set it skips the solve entirely and returns
the Euclidean fallback even for a non-singular covariance (see the
counterexample). -/
theorem claim1_objective_evaluator :
    ∀ (n : ℕ) (mean_vector : Fin n → ℚ) (covar : Matrix (Fin n) (Fin n) ℚ)
      (flag : Bool) (v : Fin n → ℚ),
      (covar.det ≠ 0 →
        eval_from_ecdf_objfun mean_vector covar flag v =
          ((mean_vector - v) ⬝ᵥ covar⁻¹.mulVec (mean_vector - v), flag,
            false) ∧
        covar.mulVec (covar⁻¹.mulVec (mean_vector - v)) = mean_vector - v) ∧
      (covar.det = 0 →
        eval_from_ecdf_objfun mean_vector covar flag v =
          ((mean_vector - v) ⬝ᵥ (mean_vector - v), true, !flag)) ∧
      (flag = false →
        eval_from_ecdf_utils mean_vector covar flag v =
          eval_from_ecdf_objfun mean_vector covar flag v) ∧
      (flag = true →
        eval_from_ecdf_utils mean_vector covar flag v =
          ((mean_vector - v) ⬝ᵥ (mean_vector - v), true, false)) ∧
      ((eval_from_ecdf_objfun mean_vector covar flag v).2.2 = true →
        flag = false) ∧
      ((eval_from_ecdf_utils mean_vector covar flag v).2.2 = true →
        flag = false) ∧
      (flag = true →
        (eval_from_ecdf_objfun mean_vector covar flag v).2.1 = true) ∧
      (flag = true →
        (eval_from_ecdf_utils mean_vector covar flag v).2.1 = true) := by
  intro n mean_vector covar flag v
  unfold eval_from_ecdf_objfun eval_from_ecdf_utils
  dsimp only
  cases hs : npSolve covar (mean_vector - v) with
  | some x =>
      have hdet : covar.det ≠ 0 := by
        intro h0
        unfold npSolve at hs
        rw [if_pos h0] at hs
        cases hs
      have hx : x = covar⁻¹.mulVec (mean_vector - v) := by
        have h := npSolve_eq_inv_mulVec hdet (mean_vector - v)
        rw [hs] at h
        exact Option.some_injective _ h
      subst hx
      cases flag with
      | false =>
          exact ⟨fun _ => ⟨rfl, npSolve_solves hdet _⟩,
            fun h0 => absurd h0 hdet, fun _ => rfl, fun h => absurd h (by simp),
            fun _ => rfl, fun _ => rfl, fun h => absurd h (by simp), fun h => absurd h (by simp)⟩
      | true =>
          exact ⟨fun _ => ⟨rfl, npSolve_solves hdet _⟩,
            fun h0 => absurd h0 hdet, fun h => absurd h (by simp), fun _ => rfl,
            fun h => absurd h (by simp), fun h => absurd h (by simp), fun _ => rfl,
            fun _ => rfl⟩
  | none =>
      have hdet : covar.det = 0 := by
        by_contra h0
        have h := npSolve_eq_inv_mulVec h0 (mean_vector - v)
        rw [hs] at h
        cases h
      cases flag with
      | false =>
          exact ⟨fun h => absurd hdet h, fun _ => rfl, fun _ => rfl,
            fun h => absurd h (by simp), fun _ => rfl, fun _ => rfl,
            fun h => absurd h (by simp), fun h => absurd h (by simp)⟩
      | true =>
          exact ⟨fun h => absurd hdet h, fun _ => rfl, fun h => absurd h (by simp),
            fun _ => rfl, fun h => absurd h (by simp), fun h => absurd h (by simp),
            fun _ => rfl, fun _ => rfl⟩

/-- Witness for C1: non-singular `1 × 1` covariance `[[2]]`, unset flag. -/
theorem claim1_objective_evaluator_witness :
    eval_from_ecdf_objfun ![1] (Matrix.of ![![(2 : ℚ)]]) false ![0] =
      ((![1] - ![0]) ⬝ᵥ (Matrix.of ![![(2 : ℚ)]])⁻¹.mulVec (![1] - ![0]),
        false, false) ∧
    (Matrix.of ![![(2 : ℚ)]]).mulVec
      ((Matrix.of ![![(2 : ℚ)]])⁻¹.mulVec (![1] - ![0])) = ![1] - ![0] :=
  (claim1_objective_evaluator 1 ![1] (Matrix.of ![![(2 : ℚ)]]) false ![0]).1
    (by rw [Matrix.det_fin_one]; norm_num)

end EcdfEst
